import Mathlib

/-!
Shallow embedding of the tenant-scoping / connection-routing core of the
pt-management-system repository, together with theorems checking the
natural-language specification against it.

Source files embedded:
- src/middleware/tenant.py : extract_tenant_from_request, validate_tenant_access,
  tenant_required, admin_required, log_tenant_action
- src/utils/database.py : DatabaseManager.switch_schema, reset_schema,
  create_tenant_schema, TenantContext
- src/routes/multi_tenant_auth.py : generate_company_slug, is_valid_slug,
  create_company
- src/models/public.py : CompanyUser.has_permission

Machine-level conventions: the single shared database connection is modelled
by a state record carrying the active search path and the catalog of
provisioned schemas; SET search_path always succeeds (storage-engine failures
of the reset itself are environmental and outside the embedding); the audit
log is threaded separately from the connection state because audit writes
touch only the audit table.
-/

namespace PTMS

/-! ## Data model (src/models/public.py) -/

/-- A row of the public.company table (the fields the middleware reads). -/
structure Company where
  id : Nat
  slug : String
  is_active : Bool
deriving DecidableEq

/-- A row of the public.company_user table (the membership record). -/
structure CompanyUser where
  user_id : Nat
  company_id : Nat
  role : String
  permissions : Option (List (String × Bool))
  can_manage_users : Bool
  is_active : Bool
deriving DecidableEq

/-! ## Connection router state (src/utils/database.py) -/

/-- The observable state of the shared database connection: the active
search path (`none` = `public` only, `some t` = `"t", public`) and the
catalog of provisioned tenant schemas. -/
structure DBState where
  searchPath : Option String
  schemas : List String
deriving DecidableEq

/-- `DatabaseManager.switch_schema`: SET search_path TO "slug", public. -/
def switch_schema (slug : String) (s : DBState) : DBState :=
  { s with searchPath := some slug }

/-- `DatabaseManager.reset_schema`: SET search_path TO public. -/
def reset_schema (s : DBState) : DBState :=
  { s with searchPath := none }

/-! ## Tenant resolver (src/middleware/tenant.py, extract_tenant_from_request) -/

/-- The parts of the flask request the tenant resolver reads: path template
variables, decoded JWT claims (`none` when no valid JWT is attached),
headers, and query parameters. -/
structure Request where
  view_args : List (String × String)
  jwt_claims : Option (List (String × String))
  headers : List (String × String)
  args : List (String × String)
deriving DecidableEq

/-- Python dict / MultiDict `.get`: first binding of the key, if any. -/
def lookupKV (k : String) (l : List (String × String)) : Option String :=
  (l.find? (fun p => p.1 == k)).map (fun p => p.2)

/-- Source 1: the `tenant_slug` path template variable, read whenever
`request.view_args` is a non-empty dict holding the key. -/
def pathSource (r : Request) : Option String :=
  if r.view_args.isEmpty then none else lookupKV "tenant_slug" r.view_args

/-- Source 2: the `tenant` claim of the decoded JWT, read whenever a JWT
is attached and its claim dict is non-empty and holds the key. -/
def credSource (r : Request) : Option String :=
  match r.jwt_claims with
  | some cs => if cs.isEmpty then none else lookupKV "tenant" cs
  | none => none

/-- Source 3: the `X-Tenant-Slug` request header. -/
def headerSource (r : Request) : Option String :=
  lookupKV "X-Tenant-Slug" r.headers

/-- Source 4: the `tenant` query parameter. -/
def querySource (r : Request) : Option String :=
  lookupKV "tenant" r.args

/-- The tail of `extract_tenant_from_request` handling the query
parameter: `if tenant_param:` takes only a truthy (non-empty) value. -/
def queryTail (r : Request) : Option String :=
  match querySource r with
  | some w => if w = "" then none else some w
  | none => none

/-- `extract_tenant_from_request`: check, in order, the `tenant_slug` path
variable (returned whenever the key is present, the value itself may be
empty), the `tenant` JWT claim (likewise presence suffices), the
`X-Tenant-Slug` header (only a truthy, i.e. non-empty, value is taken) and
the `tenant` query parameter (likewise), else `none`. -/
def extract_tenant_from_request (r : Request) : Option String :=
  match pathSource r with
  | some v => some v
  | none =>
    match credSource r with
    | some v => some v
    | none =>
      match headerSource r with
      | some v => if v = "" then queryTail r else some v
      | none => queryTail r

/-- The resolver exactly as the claim words it: the first present and
non-empty value among the four sources, in priority order. -/
def resolver_spec_claimed (r : Request) : Option String :=
  firstNonEmpty [pathSource r, credSource r, headerSource r, querySource r]
where
  firstNonEmpty : List (Option String) → Option String
    | [] => none
    | some v :: rest => if v = "" then firstNonEmpty rest else some v
    | none :: rest => firstNonEmpty rest

/-! ## Access validator (src/middleware/tenant.py, validate_tenant_access) -/

/-- A single-quote character as a one-character string, used inside the
f-string error messages of the source. -/
def apostrophe : String := String.mk [Char.ofNat 39]

/-- The error message built for an absent or inactive tenant. -/
def tenantNotFoundMsg (slug : String) : String :=
  "Tenant " ++ apostrophe ++ slug ++ apostrophe ++ " not found or inactive"

/-- The error message built for a principal with no active membership. -/
def accessDeniedMsg (slug : String) : String :=
  "User does not have access to tenant " ++ apostrophe ++ slug ++ apostrophe

/-- `validate_tenant_access(user_id, tenant_slug)` over the public tables:
returns the (is_valid, company_user, error_message) triple of the source. -/
def validate_tenant_access (user_id : Nat) (tenant_slug : String)
    (companies : List Company) (company_users : List CompanyUser) :
    Bool × Option CompanyUser × Option String :=
  match companies.find? (fun c => c.slug == tenant_slug && c.is_active) with
  | none => (false, none, some (tenantNotFoundMsg tenant_slug))
  | some company =>
    match company_users.find?
        (fun cu => cu.user_id == user_id && cu.company_id == company.id && cu.is_active) with
    | none => (false, none, some (accessDeniedMsg tenant_slug))
    | some cu => (true, some cu, none)

/-! ## The tenant_required decorator and the TenantContext helper -/

/-- Outcome of running the wrapped view body: a normal return carrying an
abstract response value, or a raised exception. -/
inductive BodyOutcome where
  | ok (resp : Nat)
  | exn
deriving DecidableEq

/-- Observable result of one request through `tenant_required`: the HTTP
status produced, the response of the body when it returned normally, and
whether the wrapped body was invoked at all. -/
structure TenantReqResult where
  status : Nat
  body_resp : Option Nat
  bodyRan : Bool
deriving DecidableEq

/-- One audit-log row as far as the middleware is concerned. -/
structure AuditEntry where
  user_id : Nat
  action : String
deriving DecidableEq

/-- The attempted access-log write inside `tenant_required`: wrapped in
try/except, so a failing write (auditOk = false) is swallowed and leaves
the log untouched. -/
def audit_attempt (auditOk : Bool) (uid : Nat) (act : String)
    (log : List AuditEntry) : List AuditEntry :=
  if auditOk then log ++ [⟨uid, act⟩] else log

/-- `tenant_required` applied to a body, run on one request. `jwtUser` is
the authenticated identity (`none`: verify_jwt_in_request raises, caught by
the outer except). The finally block re-fetches the database manager and
calls `reset_schema` on every exit path. -/
def tenant_required_run (jwtUser : Option Nat) (r : Request)
    (companies : List Company) (company_users : List CompanyUser)
    (auditOk : Bool) (body : DBState → BodyOutcome × DBState)
    (s : DBState) (log : List AuditEntry) :
    TenantReqResult × DBState × List AuditEntry :=
  let inner : TenantReqResult × DBState × List AuditEntry :=
    match jwtUser with
    | none => (⟨500, none, false⟩, s, log)
    | some uid =>
      match extract_tenant_from_request r with
      | none => (⟨400, none, false⟩, s, log)
      | some slug =>
        if slug = "" then (⟨400, none, false⟩, s, log)
        else
          match validate_tenant_access uid slug companies company_users with
          | (false, _, _) => (⟨403, none, false⟩, s, log)
          | (true, _, _) =>
            let s1 := switch_schema slug s
            let log1 := audit_attempt auditOk uid "access" log
            match body s1 with
            | (BodyOutcome.ok v, s2) => (⟨200, some v, true⟩, s2, log1)
            | (BodyOutcome.exn, s2) => (⟨500, none, true⟩, s2, log1)
  (inner.1, reset_schema inner.2.1, inner.2.2)

/-- `with TenantContext(slug): body` — enter switches the schema, exit
resets it whether or not the body raised, and returns falsy so an
exception keeps propagating. -/
def tenantContextRun (slug : String) (body : DBState → BodyOutcome × DBState)
    (s : DBState) : BodyOutcome × DBState :=
  let s1 := switch_schema slug s
  let r := body s1
  (r.1, reset_schema r.2)

/-! ## log_tenant_action (src/middleware/tenant.py) -/

/-- `log_tenant_action`: the whole body sits in try/except, so it always
returns normally. It reads g.current_user_id (`none` when unset) and only
a truthy id (non-zero, not None) triggers the AuditLog write; a failing
write (auditOk = false) raises inside the try and is swallowed, leaving
the log untouched. -/
def log_tenant_action_run (auditOk : Bool) (g_user : Option Nat) (action : String)
    (log : List AuditEntry) : List AuditEntry :=
  match g_user with
  | some uid =>
    if uid == 0 then log
    else if auditOk then log ++ [⟨uid, action⟩] else log
  | none => log

/-- One step of a tenant-scoped business handler: either a call to
`log_tenant_action`, or a business step transforming the connection state
(`none` models the step raising). -/
inductive HandlerStep where
  | audit (action : String)
  | work (f : DBState → Option DBState)

/-- Run a handler, interleaving business steps with its audit writes: a
raising business step aborts the handler, an audit step goes through
`log_tenant_action_run` and never aborts. Returns whether the handler ran
to completion, the final connection state, and the audit log. -/
def run_handler (auditOk : Bool) (g_user : Option Nat) :
    List HandlerStep → DBState → List AuditEntry →
    Bool × DBState × List AuditEntry
  | [], s, log => (true, s, log)
  | HandlerStep.audit a :: rest, s, log =>
    run_handler auditOk g_user rest s (log_tenant_action_run auditOk g_user a log)
  | HandlerStep.work f :: rest, s, log =>
    match f s with
    | some s1 => run_handler auditOk g_user rest s1 log
    | none => (false, s, log)

/-! ## The admin_required decorator (src/middleware/tenant.py) -/

/-- The role strings granted admin access by `admin_required`. -/
def admin_roles : List String := ["Super Admin", "Company Admin", "Practice Manager"]

/-- `admin_required` applied to a handler, given the membership record in
the request context (g.current_company_user). Returns whether the handler
was invoked and the resulting response (the handler response, or 403). -/
def admin_required_run (ctx : Option CompanyUser) (handler : Nat) : Bool × Nat :=
  match ctx with
  | none => (false, 403)
  | some cu =>
    if !(admin_roles.contains cu.role) && !cu.can_manage_users then (false, 403)
    else (true, handler)

/-! ## CompanyUser.has_permission (src/models/public.py) -/

/-- Lookup of a key in the JSON permission map (`permission in self.permissions`
followed by `self.permissions[permission]`). -/
def lookupPermVal (p : String) (m : List (String × Bool)) : Option Bool :=
  (m.find? (fun e => e.1 == p)).map (fun e => e.2)

/-- The role_permissions dict of `has_permission`: default permission lists
per known role, `none` for a role outside the closed set. -/
def role_permissions (role : String) : Option (List String) :=
  if role = "Super Admin" then some ["all"]
  else if role = "Company Admin" then
    some ["manage_users", "manage_settings", "view_reports", "manage_billing"]
  else if role = "Practice Manager" then some ["manage_users", "view_reports"]
  else if role = "Clinician" then
    some ["view_patients", "manage_appointments", "create_notes"]
  else if role = "Office Staff" then some ["view_patients", "manage_appointments"]
  else if role = "Scheduler" then some ["manage_appointments"]
  else none

/-- The role-default branch of `has_permission`: true when the permission is
in the role list or the list contains "all"; false for an unknown role. -/
def role_default_permission (role : String) (p : String) : Bool :=
  match role_permissions role with
  | some perms => perms.contains p || perms.contains "all"
  | none => false

/-- `CompanyUser.has_permission`: an explicit entry in the JSON permission
map wins; otherwise fall back to the role defaults. A `none` map (NULL in
the column) and a map without the key behave alike. -/
def CompanyUser.has_permission (cu : CompanyUser) (p : String) : Bool :=
  match cu.permissions with
  | some m =>
    match lookupPermVal p m with
    | some v => v
    | none => role_default_permission cu.role p
  | none => role_default_permission cu.role p

/-! ## Slug grammar and generation (src/routes/multi_tenant_auth.py) -/

/-- The character class [a-z0-9]. -/
def isLowerAlnum (c : Char) : Bool :=
  (decide (97 ≤ c.toNat) && decide (c.toNat ≤ 122))
    || (decide (48 ≤ c.toNat) && decide (c.toNat ≤ 57))

/-- `is_valid_slug`: length 2 to 50 (counted on the raw string) and a
match of the pattern ^[a-z0-9]([a-z0-9-]*[a-z0-9])?$ — first and last
characters lowercase alphanumeric, interior characters lowercase
alphanumeric or hyphen. Python re.match lets $ also match just before a
single newline ending the string, so one trailing newline is tolerated:
the pattern is matched against the string with such a newline removed. -/
def is_valid_slug (s : String) : Bool :=
  let cs := s.data
  if cs.length < 2 || 50 < cs.length then false
  else
    let body := if cs.getLast? == some (Char.ofNat 10) then cs.dropLast else cs
    match body with
    | [] => false
    | c :: rest =>
      isLowerAlnum c &&
      (match rest.reverse with
       | [] => true
       | d :: mid => isLowerAlnum d && mid.all (fun x => isLowerAlnum x || x == '-'))

/-- Python str.lower for the ASCII names handled here. -/
def pyLower (s : String) : String :=
  String.mk (s.data.map Char.toLower)

/-- The whitespace class of Python str.strip and of the regex \s. -/
def isPySpace (c : Char) : Bool :=
  c == ' ' || c == '\t' || c == '\n' || c == '\r'
    || c == Char.ofNat 11 || c == Char.ofNat 12

/-- Remove a leading and a trailing run of characters matching p, as
Python str.strip does. -/
def stripWhile (p : Char → Bool) (l : List Char) : List Char :=
  ((l.dropWhile p).reverse.dropWhile p).reverse

/-- Worker for run collapsing: the flag records whether the previous
character belonged to a run being replaced. -/
def collapseRunsGo (p : Char → Bool) (rep : Char) : Bool → List Char → List Char
  | _, [] => []
  | inRun, c :: cs =>
    if p c then
      if inRun then collapseRunsGo p rep true cs
      else rep :: collapseRunsGo p rep true cs
    else c :: collapseRunsGo p rep false cs

/-- re.sub of one-or-more characters matching p by the single character
rep: every maximal run becomes one rep. -/
def collapseRuns (p : Char → Bool) (rep : Char) (l : List Char) : List Char :=
  collapseRunsGo p rep false l

/-- The normalization pipeline of `generate_company_slug`: lowercase and
strip, drop characters outside [a-z0-9-\s], turn whitespace runs into
hyphens, collapse hyphen runs, strip hyphens. -/
def normalize_company_name (name : String) : String :=
  let cs := stripWhile isPySpace (pyLower name).data
  let cs := cs.filter (fun c => isLowerAlnum c || c == '-' || isPySpace c)
  let cs := collapseRuns isPySpace '-' cs
  let cs := collapseRuns (fun c => c == '-') '-' cs
  let cs := stripWhile (fun c => c == '-') cs
  String.mk cs

/-- The while loop of `generate_company_slug`, fuelled: probe slug, then
base-1, base-2, ... until a candidate is outside the existing slugs. The
candidates are pairwise distinct, so fuel existing.length + 1 reaches a
free one and the fuelled loop agrees with the unbounded one. -/
def findFreeSlug (base : String) (existing : List String) :
    Nat → String → Nat → String
  | 0, slug, _ => slug
  | fuel + 1, slug, counter =>
    if existing.contains slug then
      findFreeSlug base existing fuel (base ++ "-" ++ toString counter) (counter + 1)
    else slug

/-- `generate_company_slug` against the list of slugs already present in
the company table. -/
def generate_company_slug (name : String) (existing : List String) : String :=
  let slug := normalize_company_name name
  findFreeSlug slug existing (existing.length + 1) slug 1

/-! ## Provisioning (src/utils/database.py create_tenant_schema and the
create_company route of src/routes/multi_tenant_auth.py) -/

/-- `DatabaseManager.create_tenant_schema`: CREATE SCHEMA on the quoted
identifier (fails with ProgrammingError when the name is empty or already
present, otherwise creates the namespace whatever its characters — no
slug validation happens here), then switch and create tables, then seed
defaults. tablesOk and seedOk model whether those two steps succeed; any
exception is caught and turned into a False return, with no drop of the
newly created schema. -/
def create_tenant_schema (slug : String) (tablesOk seedOk : Bool) (s : DBState) :
    Bool × DBState :=
  if slug = "" || s.schemas.contains slug then
    (false, s)
  else
    let s1 : DBState := { s with schemas := s.schemas ++ [slug] }
    let s2 := switch_schema slug s1
    let s3 := switch_schema slug s2
    if !tablesOk then (false, s3)
    else
      let s4 := switch_schema slug s3
      if !seedOk then (false, reset_schema s4)
      else (true, reset_schema s4)

/-- The slug handling of the create_company route: take the provided slug
(generate from the name when absent or empty), reject it with 400 when
`is_valid_slug` fails, with 409 when a company already owns it, then
provision the schema; 500 when provisioning reports failure, else 201. -/
def create_company_run (providedSlug : Option String) (name : String)
    (companySlugs : List String) (tablesOk seedOk : Bool) (s : DBState) :
    Nat × DBState :=
  let slug :=
    match providedSlug with
    | none => generate_company_slug name companySlugs
    | some sl => if sl = "" then generate_company_slug name companySlugs else sl
  if !(is_valid_slug slug) then (400, s)
  else if companySlugs.contains slug then (409, s)
  else
    match create_tenant_schema slug tablesOk seedOk s with
    | (false, s1) => (500, s1)
    | (true, s1) => (201, s1)

end PTMS

namespace PTMS

/-! ## Theorems -/

/-- The two failure messages of `validate_tenant_access` differ for every
slug: their constant parts have different lengths. -/
lemma validate_msgs_distinct (slug : String) :
    tenantNotFoundMsg slug ≠ accessDeniedMsg slug := by
  intro h
  have h1 := congrArg String.length h
  simp only [tenantNotFoundMsg, accessDeniedMsg, String.length_append] at h1
  have ha : ("Tenant " : String).length = 7 := rfl
  have hb : (" not found or inactive" : String).length = 22 := rfl
  have hc : ("User does not have access to tenant " : String).length = 36 := rfl
  have hd : apostrophe.length = 1 := rfl
  omega

/-- C5: routing to a tenant is idempotent — switching twice to the same
tenant yields exactly the state of switching once — and switching to a
different id repoints the routing at the new id, forgetting the old one. -/
theorem switch_schema_idempotent_and_switches :
    (∀ (t : String) (s : DBState),
      switch_schema t (switch_schema t s) = switch_schema t s)
    ∧ (∀ (t u : String) (s : DBState),
      (switch_schema u (switch_schema t s)).searchPath = some u
        ∧ switch_schema u (switch_schema t s) = switch_schema u s) := by
  constructor
  · intro t s
    rfl
  · intro t u s
    exact ⟨rfl, rfl⟩

/-- C3: `validate_tenant_access` fails with the tenant-not-found message
when no active tenant record carries the slug, fails with the
access-denied message when the tenant is found but the principal has no
active membership in it, succeeds returning the membership record when
both lookups hit, and the two failure messages are distinguishable. -/
theorem validate_tenant_access_spec (uid : Nat) (slug : String)
    (companies : List Company) (cus : List CompanyUser) :
    ((∀ c ∈ companies, ¬(c.slug = slug ∧ c.is_active = true)) →
      validate_tenant_access uid slug companies cus
        = (false, none, some (tenantNotFoundMsg slug)))
    ∧ (∀ c, companies.find? (fun c => c.slug == slug && c.is_active) = some c →
        ((∀ cu ∈ cus, ¬(cu.user_id = uid ∧ cu.company_id = c.id ∧ cu.is_active = true)) →
          validate_tenant_access uid slug companies cus
            = (false, none, some (accessDeniedMsg slug)))
        ∧ (∀ cu, cus.find?
              (fun cu => cu.user_id == uid && cu.company_id == c.id && cu.is_active)
              = some cu →
            validate_tenant_access uid slug companies cus = (true, some cu, none)))
    ∧ tenantNotFoundMsg slug ≠ accessDeniedMsg slug := by
  refine ⟨?_, ?_, validate_msgs_distinct slug⟩
  · intro h
    have hf : companies.find? (fun c => c.slug == slug && c.is_active) = none := by
      rw [List.find?_eq_none]
      intro c hc
      have hcc := h c hc
      simp only [Bool.and_eq_true, beq_iff_eq]
      tauto
    simp [validate_tenant_access, hf]
  · intro c hc
    constructor
    · intro h
      have hf : cus.find?
          (fun cu => cu.user_id == uid && cu.company_id == c.id && cu.is_active) = none := by
        rw [List.find?_eq_none]
        intro cu hcu
        have hcc := h cu hcu
        simp only [Bool.and_eq_true, beq_iff_eq]
        tauto
      simp [validate_tenant_access, hc, hf]
    · intro cu hcu
      simp [validate_tenant_access, hc, hcu]

/-- Witness for C3: with one active company "clinic-a" (id 1), user 7
holding an inactive membership is denied with the access-denied message,
and querying a slug with no record yields the tenant-not-found message. -/
theorem validate_tenant_access_spec_witness :
    validate_tenant_access 7 "clinic-a"
        [⟨1, "clinic-a", true⟩]
        [⟨7, 1, "Clinician", none, false, false⟩]
      = (false, none, some (accessDeniedMsg "clinic-a"))
    ∧ validate_tenant_access 7 "ghost"
        [⟨1, "clinic-a", true⟩]
        [⟨7, 1, "Clinician", none, false, false⟩]
      = (false, none, some (tenantNotFoundMsg "ghost")) := by
  constructor
  · exact ((validate_tenant_access_spec 7 "clinic-a"
      [⟨1, "clinic-a", true⟩] [⟨7, 1, "Clinician", none, false, false⟩]).2.1
        ⟨1, "clinic-a", true⟩ (by decide)).1 (by decide)
  · exact (validate_tenant_access_spec 7 "ghost"
      [⟨1, "clinic-a", true⟩] [⟨7, 1, "Clinician", none, false, false⟩]).1 (by decide)

/-- A handler's completion flag and final connection state depend neither
on the audit log it starts from nor on whether its audit writes succeed:
audit steps touch only the log and business steps never read it. -/
lemma run_handler_log_independent (g_user : Option Nat) :
    ∀ (steps : List HandlerStep) (s : DBState) (a b : Bool)
      (log1 log2 : List AuditEntry),
      (run_handler a g_user steps s log1).1 = (run_handler b g_user steps s log2).1
      ∧ (run_handler a g_user steps s log1).2.1
        = (run_handler b g_user steps s log2).2.1 := by
  intro steps
  induction steps with
  | nil =>
    intro s a b log1 log2
    exact ⟨rfl, rfl⟩
  | cons step rest ih =>
    intro s a b log1 log2
    cases step with
    | audit act =>
      simpa only [run_handler] using ih s a b _ _
    | work f =>
      cases hf : f s with
      | some s1 => simpa only [run_handler, hf] using ih s1 a b log1 log2
      | none => simp [run_handler, hf]

/-- C8: an attempted audit write that fails is swallowed at both audit
sites. The access-log write inside `tenant_required` leaves the response
(status, body response, whether the body ran) and the final connection
state identical whether it succeeds or fails, and a handler interleaving
`log_tenant_action` calls with business steps completes with the same
outcome and the same connection state either way; only the audit log
itself differs. -/
theorem audit_failure_swallowed (jwtUser : Option Nat) (r : Request)
    (companies : List Company) (cus : List CompanyUser)
    (body : DBState → BodyOutcome × DBState) (s : DBState) (log : List AuditEntry) :
    ((tenant_required_run jwtUser r companies cus true body s log).1
      = (tenant_required_run jwtUser r companies cus false body s log).1
    ∧ (tenant_required_run jwtUser r companies cus true body s log).2.1
      = (tenant_required_run jwtUser r companies cus false body s log).2.1)
    ∧ (∀ (g_user : Option Nat) (steps : List HandlerStep) (s1 : DBState)
        (log1 : List AuditEntry),
        (run_handler true g_user steps s1 log1).1
          = (run_handler false g_user steps s1 log1).1
        ∧ (run_handler true g_user steps s1 log1).2.1
          = (run_handler false g_user steps s1 log1).2.1) := by
  constructor
  · cases jwtUser with
    | none => exact ⟨rfl, rfl⟩
    | some uid =>
      cases hx : extract_tenant_from_request r with
      | none => simp [tenant_required_run, hx]
      | some slug =>
        by_cases hs : slug = ""
        · simp [tenant_required_run, hx, hs]
        · rcases hv : validate_tenant_access uid slug companies cus with ⟨b, rest⟩
          cases b
          · simp [tenant_required_run, hx, hs, hv]
          · rcases hb : body (switch_schema slug s) with ⟨out, s2⟩
            cases out <;> simp [tenant_required_run, hx, hs, hv, hb, audit_attempt]
  · intro g_user steps s1 log1
    exact run_handler_log_independent g_user steps s1 true false log1 log1

/-- C1: on every exit path of the tenant-scoped wrappers — JWT failure,
missing tenant, denied access, normal body return or body exception — the
connection finishes routed back to the shared/public namespace, both for
the `tenant_required` decorator and for the `TenantContext` helper. -/
theorem tenant_wrappers_always_reset :
    (∀ (jwtUser : Option Nat) (r : Request) (companies : List Company)
       (cus : List CompanyUser) (auditOk : Bool)
       (body : DBState → BodyOutcome × DBState) (s : DBState)
       (log : List AuditEntry),
      (tenant_required_run jwtUser r companies cus auditOk body s log).2.1.searchPath = none)
    ∧ (∀ (slug : String) (body : DBState → BodyOutcome × DBState) (s : DBState),
      (tenantContextRun slug body s).2.searchPath = none) := by
  constructor
  · intro jwtUser r companies cus auditOk body s log
    rfl
  · intro slug body s
    rfl

/-- C9: the admin guard invokes the handler exactly when the context holds
a membership whose role is Super Admin, Company Admin or Practice Manager,
or whose can_manage_users flag is set; whenever it does not invoke the
handler it answers 403; and can_manage_users alone suffices, whatever the
role. -/
theorem admin_required_spec (ctx : Option CompanyUser) (handler : Nat) :
    ((admin_required_run ctx handler).1 = true ↔
      ∃ cu, ctx = some cu ∧ (cu.role ∈ admin_roles ∨ cu.can_manage_users = true))
    ∧ ((admin_required_run ctx handler).1 = true →
        (admin_required_run ctx handler).2 = handler)
    ∧ ((admin_required_run ctx handler).1 = false →
        (admin_required_run ctx handler).2 = 403)
    ∧ (∀ cu, ctx = some cu → cu.can_manage_users = true →
        admin_required_run ctx handler = (true, handler)) := by
  cases ctx with
  | none => simp [admin_required_run]
  | some cu =>
    by_cases hr : admin_roles.contains cu.role
    · simp_all [admin_required_run, List.elem_iff]
    · by_cases hm : cu.can_manage_users
      · simp_all [admin_required_run, List.elem_iff]
      · simp_all [admin_required_run, List.elem_iff]

/-- Witness for C9: a Clinician with can_manage_users set is admitted with
the handler response; an empty context is refused with 403. -/
theorem admin_required_spec_witness :
    admin_required_run (some ⟨7, 1, "Clinician", none, true, true⟩) 42 = (true, 42)
    ∧ (admin_required_run none 42).2 = 403 := by
  constructor
  · exact (admin_required_spec (some ⟨7, 1, "Clinician", none, true, true⟩) 42).2.2.2
      ⟨7, 1, "Clinician", none, true, true⟩ rfl rfl
  · exact (admin_required_spec none 42).2.2.1 (by decide)

/-- C10: an explicit entry of the permission map decides `has_permission`
outright; with no explicit entry a known role answers true exactly when
the permission is in its default list or that list contains "all"; an
unknown role answers false; and "all" appears in exactly one default
list, the one of Super Admin. -/
theorem has_permission_spec (cu : CompanyUser) (p : String) :
    (∀ m v, cu.permissions = some m → lookupPermVal p m = some v →
        cu.has_permission p = v)
    ∧ ((∀ m, cu.permissions = some m → lookupPermVal p m = none) →
        ∀ l, role_permissions cu.role = some l →
          (cu.has_permission p = true ↔ (p ∈ l ∨ "all" ∈ l)))
    ∧ ((∀ m, cu.permissions = some m → lookupPermVal p m = none) →
        role_permissions cu.role = none → cu.has_permission p = false)
    ∧ (∀ (role : String) (l : List String), role_permissions role = some l →
        ("all" ∈ l ↔ role = "Super Admin")) := by
  refine ⟨?_, ?_, ?_, ?_⟩
  · intro m v hm hv
    simp [CompanyUser.has_permission, hm, hv]
  · intro h l hl
    cases hp : cu.permissions with
    | none =>
      simp [CompanyUser.has_permission, hp, role_default_permission, hl]
    | some m =>
      have hm := h m hp
      simp [CompanyUser.has_permission, hp, hm, role_default_permission, hl]
  · intro h hl
    cases hp : cu.permissions with
    | none =>
      simp [CompanyUser.has_permission, hp, role_default_permission, hl]
    | some m =>
      have hm := h m hp
      simp [CompanyUser.has_permission, hp, hm, role_default_permission, hl]
  · intro role l hl
    unfold role_permissions at hl
    split_ifs at hl with h1 h2 h3 h4 h5 h6 <;> (try cases hl) <;> simp_all

/-- Witness for C10: a Company Admin with the explicit entry
(manage_users, false) is denied manage_users even though the role default
grants it, and a member with an unknown role and no map gets false. -/
theorem has_permission_spec_witness :
    CompanyUser.has_permission
        ⟨7, 1, "Company Admin", some [("manage_users", false)], true, true⟩
        "manage_users" = false
    ∧ CompanyUser.has_permission ⟨8, 1, "Intern", none, false, true⟩ "view_patients"
        = false := by
  constructor
  · exact (has_permission_spec
      ⟨7, 1, "Company Admin", some [("manage_users", false)], true, true⟩
      "manage_users").1 [("manage_users", false)] false rfl (by decide)
  · exact (has_permission_spec ⟨8, 1, "Intern", none, false, true⟩
      "view_patients").2.2.1 (by intro m hm; cases hm) (by decide)

/-- C7: generating a slug for the name "Demo Clinic" with no slug taken
yields "demo-clinic"; with "demo-clinic" already taken the numeric suffix
disambiguates to "demo-clinic-1". -/
theorem generate_company_slug_demo_clinic :
    generate_company_slug "Demo Clinic" [] = "demo-clinic"
    ∧ generate_company_slug "Demo Clinic" ["demo-clinic"] = "demo-clinic-1" := by
  decide

/-- C6: when table creation fails right after the schema was created,
`create_tenant_schema` merely returns False — the new schema stays in the
catalog (no rollback drop is attempted) and the connection is even left
routed at the half-provisioned tenant. -/
theorem create_tenant_schema_no_rollback_on_failure :
    create_tenant_schema "demo" false true ⟨none, []⟩
      = (false, ⟨some "demo", ["demo"]⟩) := by
  decide

/-- Counterexample for C2: the malformed (uppercase) slug "ABC" fails the
slug grammar, yet `create_tenant_schema` succeeds and creates the
namespace — the registry operation performs no validation; and a slug
ending in a newline slips through the route validation itself (re.match
lets $ match before a trailing newline), so create_company provisions a
namespace for it instead of failing with InvalidIdentifier. -/
theorem create_tenant_schema_skips_validation :
    is_valid_slug "ABC" = false
    ∧ create_tenant_schema "ABC" true true ⟨none, []⟩ = (true, ⟨none, ["ABC"]⟩)
    ∧ is_valid_slug ("ab" ++ String.mk [Char.ofNat 10]) = true
    ∧ create_company_run (some ("ab" ++ String.mk [Char.ofNat 10])) "Clinic" []
        true true ⟨none, []⟩
        = (201, ⟨none, ["ab" ++ String.mk [Char.ofNat 10]]⟩) := by
  decide

/-- C2 (amended): slug validation lives in the create_company route, not
in the schema-creation operation — for every non-empty slug failing
`is_valid_slug` the route answers 400 before touching storage, leaving
the schema catalog untouched ( `is_valid_slug` itself implements the slug
grammar up to the re.match quirk tolerating one trailing newline). -/
theorem create_company_rejects_invalid_slug (sl name : String)
    (slugs : List String) (tablesOk seedOk : Bool) (s : DBState)
    (hne : sl ≠ "") (hbad : is_valid_slug sl = false) :
    create_company_run (some sl) name slugs tablesOk seedOk s = (400, s) := by
  simp [create_company_run, hne, hbad]

/-- Witness for the amended C2: the uppercase slug "ABC" is refused with
400 and no namespace appears. -/
theorem create_company_rejects_invalid_slug_witness :
    create_company_run (some "ABC") "Demo Clinic" [] true true ⟨none, []⟩
      = (400, ⟨none, []⟩) :=
  create_company_rejects_invalid_slug "ABC" "Demo Clinic" [] true true ⟨none, []⟩
    (by decide) (by decide)

/-- Counterexample for C4: with no path variable, a JWT carrying the empty
claim tenant = "" and the header X-Tenant-Slug = "clinic-b", the resolver
of the code returns the empty claim value, while the first present
non-empty value demanded by the claim is "clinic-b". -/
theorem extract_tenant_counterexample :
    extract_tenant_from_request
        ⟨[], some [("tenant", "")], [("X-Tenant-Slug", "clinic-b")], []⟩ = some ""
    ∧ resolver_spec_claimed
        ⟨[], some [("tenant", "")], [("X-Tenant-Slug", "clinic-b")], []⟩
        = some "clinic-b"
    ∧ some ("" : String) ≠ some "clinic-b" := by
  decide

/-- C4 (amended): the resolver checks the four sources in strict priority
order — path variable, JWT claim, header, query parameter — where for the
first two presence of the key suffices (the value is returned even when
empty) and the last two are taken only when non-empty; it returns
not-found when no source yields a value; a present path variable wins
over any stale credential claim. -/
theorem extract_tenant_priority (r : Request) :
    (∀ v, pathSource r = some v → extract_tenant_from_request r = some v)
    ∧ (pathSource r = none → ∀ v, credSource r = some v →
        extract_tenant_from_request r = some v)
    ∧ (pathSource r = none → credSource r = none → ∀ v, headerSource r = some v →
        v ≠ "" → extract_tenant_from_request r = some v)
    ∧ (pathSource r = none → credSource r = none →
        (headerSource r = none ∨ headerSource r = some "") →
        ∀ v, querySource r = some v → v ≠ "" →
        extract_tenant_from_request r = some v)
    ∧ (pathSource r = none → credSource r = none →
        (headerSource r = none ∨ headerSource r = some "") →
        (querySource r = none ∨ querySource r = some "") →
        extract_tenant_from_request r = none) := by
  refine ⟨?_, ?_, ?_, ?_, ?_⟩
  · intro v h
    simp [extract_tenant_from_request, h]
  · intro hp v h
    simp [extract_tenant_from_request, hp, h]
  · intro hp hc v h hv
    simp [extract_tenant_from_request, hp, hc, h, hv]
  · intro hp hc hh v h hv
    rcases hh with hh | hh <;>
      simp [extract_tenant_from_request, queryTail, hp, hc, hh, h, hv]
  · intro hp hc hh hq
    rcases hh with hh | hh <;> rcases hq with hq | hq <;>
      simp [extract_tenant_from_request, queryTail, hp, hc, hh, hq]

/-- Witness for the amended C4: a request carrying the path variable
tenant_slug = "clinic-b" resolves to clinic-b even though a stale JWT
claim names clinic-a. -/
theorem extract_tenant_priority_witness :
    extract_tenant_from_request
        ⟨[("tenant_slug", "clinic-b")], some [("tenant", "clinic-a")], [], []⟩
      = some "clinic-b" :=
  (extract_tenant_priority
    ⟨[("tenant_slug", "clinic-b")], some [("tenant", "clinic-a")], [], []⟩).1
    "clinic-b" (by decide)

end PTMS
